import Mathlib

/-!
Shallow embedding of the AI feedback classification pipeline of the GEN_AI
repository:

* the retry/timeout loop of `gpt_service.get_ai_feedback`
  (`services/core_api/app/services/gpt_service.py`),
* the objective-data block of the prompt input and the transactional
  persistence in `review.create_review`
  (`services/core_api/app/api/review.py`),
* the profit/loss-rate extraction `extract_profit_loss_rate` (same file),
* the owner-scoped final-memo update `update_final_memo` (same file),
* the per-sub-section error markers produced by
  `yfinance_processor.get_current_market_context`
  (`services/data_processor/app/yfinance_processor.py`).

Python dictionaries/JSON values are modelled by an inductive `Json` type with
Python's `dict.get` and truthiness semantics.  The generative model itself is
external: it is abstracted as a `provider : ℕ → AttemptOutcome` giving the
outcome of each call attempt, exactly the outcomes the `except` clauses of
`get_ai_feedback` discriminate.  Wall-clock sleeping is modelled by recording
the requested backoff durations in order.
-/

namespace GenAI

/-- JSON values as returned by `json.loads` / `response.json()`. -/
inductive Json where
  | null
  | bool (b : Bool)
  | num (q : ℚ)
  | str (s : String)
  | arr (xs : List Json)
  | obj (kvs : List (String × Json))

/-- A JSON object body (Python dict). -/
abbrev JObj := List (String × Json)

/-- Python `d.get(k, default)` on a dict: value of the first binding of `k`,
else the default. -/
def jGet (kvs : JObj) (k : String) (dflt : Json) : Json :=
  match kvs.find? (fun p => p.1 == k) with
  | some p => p.2
  | none => dflt

/-- Python truthiness of a JSON value (`if ai_response.get("error"):`). -/
def truthy : Json → Bool
  | .null => false
  | .bool b => b
  | .num q => q != 0
  | .str s => s != ""
  | .arr xs => !xs.isEmpty
  | .obj kvs => !kvs.isEmpty

/-! ## Classification invoker: `get_ai_feedback` (gpt_service.py lines 62-184) -/

/-- Outcome of `json.loads(response_content)` on the raw model text: the
`JSONDecodeError` case (caught by the generic `except Exception` clause) or a
parsed value. -/
inductive ModelResponse where
  | unparseable (errMsg : String)
  | parsed (j : Json)

/-- Outcome of one `client.chat.completions.create` call under
`asyncio.wait_for`, as discriminated by the `except` clauses of
`get_ai_feedback`. -/
inductive AttemptOutcome where
  | success (r : ModelResponse)
  | timeout
  | badRequest (errMsg : String)
  | rateLimit
  | otherError (errMsg : String)

/-- Source line 79. -/
def msgNoApiKey : String := "API 키가 설정되지 않았습니다."

/-- Source line 151 with the fixed `timeout = 30`. -/
def msgTimeout : String := "AI 응답 시간이 30초를 초과했습니다."

/-- Source line 170. -/
def msgRateLimit : String := "API 요청 한도 초과. 잠시 후 다시 시도해주세요."

/-- Source line 184, reached when the `for` loop finishes without returning. -/
def msgRetriesExceeded : String := "AI 분석을 완료할 수 없습니다. 재시도 횟수를 초과했습니다."

/-- Source line 161. -/
def msgBadRequest (e : String) : String := "API 요청 오류: " ++ e

/-- Source line 181 (also covers the `json.loads` failure, which falls into the
same generic `except Exception` clause). -/
def msgOtherError (e : String) : String := "AI 응답 처리 중 오류가 발생했습니다: " ++ e

/-- The `{"error": msg}` dictionaries `get_ai_feedback` returns on failure. -/
def errDict (msg : String) : Json := Json.obj [("error", Json.str msg)]

/-- The configuration fields `get_ai_feedback` reads (`core/config.py`). -/
structure InvokerConfig where
  OPENAI_API_KEY : String
  MAX_RETRIES : ℕ
  RETRY_DELAY : ℚ

/-- The `for attempt in range(max_retries)` loop of `get_ai_feedback`
(source lines 116-184), entered at attempt number `attempt` with
`remaining` iterations of the range left.  Returns the dictionary the Python
function returns, the number of model-call attempts actually made, and the
list of backoff sleep durations requested (in order).  Mirrors the source:

* parsed success returns the parsed value unchanged (lines 137-142);
* `TimeoutError`: failure dict if `attempt == max_retries - 1`, else sleep
  `retry_delay * (attempt + 1)` and retry (lines 144-152);
* `BadRequestError`: immediate failure dict, no retry (lines 154-161);
* `RateLimitError`: like timeout with its own message (lines 163-171);
* any other exception, including `json.loads` failure: like timeout with the
  stringified error (lines 173-182);
* loop exhausted: the retries-exceeded dict (line 184). -/
def runAttempts (provider : ℕ → AttemptOutcome) (maxRetries : ℕ) (retryDelay : ℚ) :
    ℕ → ℕ → Json × ℕ × List ℚ
  | _, 0 => (errDict msgRetriesExceeded, 0, [])
  | attempt, remaining + 1 =>
    match provider attempt with
    | .success (.parsed j) => (j, 1, [])
    | .success (.unparseable e) =>
      if attempt = maxRetries - 1 then (errDict (msgOtherError e), 1, [])
      else
        let r := runAttempts provider maxRetries retryDelay (attempt + 1) remaining
        (r.1, r.2.1 + 1, retryDelay * (attempt + 1 : ℚ) :: r.2.2)
    | .timeout =>
      if attempt = maxRetries - 1 then (errDict msgTimeout, 1, [])
      else
        let r := runAttempts provider maxRetries retryDelay (attempt + 1) remaining
        (r.1, r.2.1 + 1, retryDelay * (attempt + 1 : ℚ) :: r.2.2)
    | .badRequest e => (errDict (msgBadRequest e), 1, [])
    | .rateLimit =>
      if attempt = maxRetries - 1 then (errDict msgRateLimit, 1, [])
      else
        let r := runAttempts provider maxRetries retryDelay (attempt + 1) remaining
        (r.1, r.2.1 + 1, retryDelay * (attempt + 1 : ℚ) :: r.2.2)
    | .otherError e =>
      if attempt = maxRetries - 1 then (errDict (msgOtherError e), 1, [])
      else
        let r := runAttempts provider maxRetries retryDelay (attempt + 1) remaining
        (r.1, r.2.1 + 1, retryDelay * (attempt + 1 : ℚ) :: r.2.2)

/-- `get_ai_feedback` (gpt_service.py lines 62-184): the empty-API-key guard
(lines 77-79) followed by the retry loop.  The prompt construction
(lines 83-109) is pure string formatting of the input dictionary and cannot
fail for the dictionaries `create_review` builds, so it is not modelled
separately; the model's behaviour per attempt is abstracted as `provider`.
Returns the result dictionary together with the attempt count and the backoff
sleep durations. -/
def get_ai_feedback (cfg : InvokerConfig) (provider : ℕ → AttemptOutcome) :
    Json × ℕ × List ℚ :=
  if cfg.OPENAI_API_KEY = "" then (errDict msgNoApiKey, 0, [])
  else runAttempts provider cfg.MAX_RETRIES cfg.RETRY_DELAY 0 cfg.MAX_RETRIES

/-! ## Profit/loss-rate extraction: `extract_profit_loss_rate` (review.py lines 40-48)

`re.search(r'\(([+-]?\d+\.?\d*)%\)', trade_info)` scans positions left to
right; a match must start at a literal `(`, then an optional sign, one or more
digits, an optional dot followed by zero or more digits, then `%)`.  Because
`%` is not a digit and a digit is neither `.` nor `%`, the regex engine's
greedy runs with backtracking are equivalent to: take the maximal digit run,
then (if a dot follows) the dot and the maximal digit run after it, requiring
`%)` next — falling back to the no-dot reading only when no dot is present. -/

/-- Split the maximal leading run of ASCII digits. -/
def takeDigits : List Char → List Char × List Char
  | [] => ([], [])
  | c :: cs =>
    if c.isDigit then
      let r := takeDigits cs
      (c :: r.1, r.2)
    else ([], c :: cs)

/-- Try to match `[+-]?\d+\.?\d*%\)` at the head of `cs` (the text right after
an opening parenthesis); returns the captured group on success. -/
def matchPercentBody (cs : List Char) : Option (List Char) :=
  let sr : List Char × List Char :=
    match cs with
    | '+' :: r => (['+'], r)
    | '-' :: r => (['-'], r)
    | r => ([], r)
  let d1 := takeDigits sr.2
  if d1.1 = [] then none
  else
    match d1.2 with
    | '.' :: cs3 =>
      let d2 := takeDigits cs3
      match d2.2 with
      | '%' :: ')' :: _ => some (sr.1 ++ d1.1 ++ '.' :: d2.1)
      | _ => none
    | '%' :: ')' :: _ => some (sr.1 ++ d1.1)
    | _ => none

/-- Leftmost match of the percentage pattern (`re.search` semantics). -/
def searchPercent : List Char → Option (List Char)
  | [] => none
  | c :: cs =>
    if c = '(' then
      match matchPercentBody cs with
      | some g => some g
      | none => searchPercent cs
    else searchPercent cs

/-- Decimal digits to a natural number. -/
def digitsToNat (ds : List Char) : ℕ :=
  ds.foldl (fun n c => 10 * n + (c.toNat - '0'.toNat)) 0

/-- Python `float(group)` on the captured group (sign, digits, optional
fraction), with exact rational arithmetic standing in for the float. -/
def parseSignedDecimal (g : List Char) : ℚ :=
  let unsigned : List Char → ℚ := fun r =>
    let d1 := takeDigits r
    match d1.2 with
    | '.' :: r2 =>
      let d2 := takeDigits r2
      (digitsToNat d1.1 : ℚ) + (digitsToNat d2.1 : ℚ) / (10 ^ d2.1.length : ℚ)
    | _ => (digitsToNat d1.1 : ℚ)
  match g with
  | '+' :: r => unsigned r
  | '-' :: r => -(unsigned r)
  | r => unsigned r

/-- `extract_profit_loss_rate` (review.py lines 40-48): the parenthesized
signed percentage embedded in `trade_info`, or `None` when the pattern does
not occur.  Total — the Python function has no raising path. -/
def extract_profit_loss_rate (trade_info : String) : Option ℚ :=
  (searchPercent trade_info.toList).map parseSignedDecimal

/-! ## Market snapshot and the prompt's objective-data block

`get_current_market_context` (yfinance_processor.py lines 51-154) always
returns a dict with all four sub-section keys, each holding either its data
object or the error marker `{"error": msg}`; `related_news` holds either a
list of news-item objects (possibly empty) or the error marker
(lines 114-129). -/

/-- The `related_news` sub-section as the data processor produces it. -/
inductive NewsField where
  | items (xs : List JObj)
  | errObj (msg : String)

/-- A market snapshot as returned (status 200) by the data processor's
`/api/market/context` endpoint: four independently-fallible sub-sections.
A sub-section given as a `JObj` carries either its data fields (a summary
dict containing `rsi_status` for the chart, `status` for the market index,
ratio fields for financials) or the error marker `{"error": msg}`. -/
structure MarketSnapshot where
  chart_indicators : JObj
  financial_indicators : JObj
  related_news : NewsField
  market_indicators : JObj

/-- The `objective_data_at_sell_or_buy` block of `ai_input_data`. -/
structure AiObjective where
  chart_indicators : Json
  related_news : List Json
  market_indicators : Json

/-- The construction of the `objective_data_at_sell_or_buy` block in
`create_review` (review.py lines 109-116):

* `objective_data.get("chart_indicators", {}).get("rsi_status", "N/A")`;
* `[news.get("title", "N/A") for news in objective_data.get("related_news", [])[:3]]`;
* `objective_data.get("market_indicators", {}).get("status", "N/A")`.

When `related_news` is the error-marker dict, the slice `[:3]` raises
`TypeError` (a Python dict is not sliceable); this propagates out of the
construction, which sits outside every `try` block of `create_review`. -/
def compileObjective (snapshot : MarketSnapshot) : Except String AiObjective :=
  match snapshot.related_news with
  | .errObj _ => .error "TypeError: unhashable type: slice"
  | .items xs =>
    .ok { chart_indicators := jGet snapshot.chart_indicators "rsi_status" (Json.str "N/A"),
          related_news := (xs.take 3).map (fun n => jGet n "title" (Json.str "N/A")),
          market_indicators := jGet snapshot.market_indicators "status" (Json.str "N/A") }

/-! ## Persisted entities and the review-creation orchestrator (review.py) -/

/-- A `Trade` row (db/models.py lines 34-52; only the fields `create_review`
writes — `buy_date`/`sell_date` stay NULL there). -/
structure Trade where
  id : ℕ
  user_id : ℕ
  ticker : String
  profit_loss_rate : Option ℚ

/-- A `ReviewNote` row (db/models.py lines 55-92), with the fields
`create_review` and `update_final_memo` touch. -/
structure ReviewNote where
  id : ℕ
  user_id : ℕ
  trade_id : ℕ
  subjective_memo : String
  emotion_tags : List String
  chart_context : JObj
  news_context : NewsField
  market_context : JObj
  financial_context : JObj
  ai_analysis : Json
  ai_questions : Json
  primary_type : Json
  secondary_type : Json
  final_memo : Option String

/-- The persistence layer's visible state: the two tables. -/
structure DB where
  trades : List Trade
  notes : List ReviewNote

/-- `ReviewCreateRequest` (models/schemas.py lines 66-71), post-validation. -/
structure ReviewCreateRequest where
  ticker : String
  trade_info : String
  emotion_tags : List String
  memo : String

/-- Outcome of the `httpx` call to the data processor, as discriminated by the
`except` clauses of `create_review` (review.py lines 68-99). -/
inductive FetchResult where
  | ok (snapshot : MarketSnapshot)
  | httpStatusError (statusCode : ℕ)
  | readTimeout
  | otherExc (msg : String)

/-- Which statement of the persistence `try` block (review.py lines 134-178)
raises, if any: the `flush` obtaining the trade id, or the `commit`. -/
inductive PersistFail where
  | flushFails
  | commitFails

/-- Externally visible outcome of `create_review`. -/
inductive ReviewOutcome where
  | created (analysis questions primary secondary : Json)
  | httpError (statusCode : ℕ) (detail : String)
  | unhandledExc (msg : String)

/-- Source line 86. -/
def msgFetch503 : String := "시장 데이터 서버에 연결할 수 없습니다. 잠시 후 다시 시도해주세요."

/-- Source line 92. -/
def msgFetch504 : String := "시장 데이터 서버(data_processor) 응답 시간이 초과되었습니다."

/-- Source line 98. -/
def msgFetch500 : String := "시장 데이터를 가져오는 중 오류가 발생했습니다."

/-- Source line 190. -/
def msgStorage : String := "복기 노트를 저장하는 중 오류가 발생했습니다."

/-- Python `str()` of a JSON value as interpolated into the f-string of source
line 128; only the string case is exercised by the service. -/
def pyStr : Json → String
  | .str s => s
  | .null => "None"
  | .bool true => "True"
  | .bool false => "False"
  | .num q => toString q
  | .arr _ => "[list]"
  | .obj _ => "[dict]"

/-- `create_review` (review.py lines 51-200).  Sequence, mirroring the source:

1. data-processor fetch (lines 66-99): each failure kind maps to its
   `HTTPException` before anything else happens;
2. `ai_input_data` construction (lines 101-117): `compileObjective` — its
   `TypeError` on an error-marker `related_news` escapes unhandled;
3. `get_ai_feedback` (lines 119-129): a returned dict with a truthy `"error"`
   entry maps to a 500 with the stringified error (the parsed model value is
   returned by `get_ai_feedback` unchanged, so a non-dict parse would make
   `.get` raise `AttributeError` — unhandled);
4. persistence (lines 133-191): inside one `try`, extract the profit/loss
   rate, add the `Trade`, flush to obtain its id, add the `ReviewNote`,
   commit; any exception rolls the whole transaction back and maps to the
   generic storage 500.  Row ids are the next free identities;
5. response (lines 193-200): the four AI fields with `""` defaults for the
   first three and `None` for `secondary_type`. -/
def create_review (db : DB) (userId : ℕ) (req : ReviewCreateRequest)
    (fetch : FetchResult) (cfg : InvokerConfig) (provider : ℕ → AttemptOutcome)
    (persistFail : Option PersistFail) : ReviewOutcome × DB :=
  match fetch with
  | .httpStatusError _ => (.httpError 503 msgFetch503, db)
  | .readTimeout => (.httpError 504 msgFetch504, db)
  | .otherExc _ => (.httpError 500 msgFetch500, db)
  | .ok snapshot =>
    match compileObjective snapshot with
    | .error m => (.unhandledExc m, db)
    | .ok _aiInput =>
      match (get_ai_feedback cfg provider).1 with
      | .obj kvs =>
        if truthy (jGet kvs "error" Json.null) then
          (.httpError 500 ("AI 분석 실패: " ++ pyStr (jGet kvs "error" Json.null)), db)
        else
          match persistFail with
          | some _ => (.httpError 500 msgStorage, db)
          | none =>
            let tradeId := db.trades.length + 1
            let newTrade : Trade :=
              { id := tradeId, user_id := userId, ticker := req.ticker,
                profit_loss_rate := extract_profit_loss_rate req.trade_info }
            let newNote : ReviewNote :=
              { id := db.notes.length + 1, user_id := userId, trade_id := tradeId,
                subjective_memo := req.memo, emotion_tags := req.emotion_tags,
                chart_context := snapshot.chart_indicators,
                news_context := snapshot.related_news,
                market_context := snapshot.market_indicators,
                financial_context := snapshot.financial_indicators,
                ai_analysis := jGet kvs "analysis" Json.null,
                ai_questions := jGet kvs "questions" Json.null,
                primary_type := jGet kvs "primary_type" Json.null,
                secondary_type := jGet kvs "secondary_type" Json.null,
                final_memo := none }
            (.created (jGet kvs "analysis" (Json.str ""))
                      (jGet kvs "questions" (Json.str ""))
                      (jGet kvs "primary_type" (Json.str ""))
                      (jGet kvs "secondary_type" Json.null),
             { trades := db.trades ++ [newTrade], notes := db.notes ++ [newNote] })
      | _ => (.unhandledExc "AttributeError: object has no attribute get", db)

/-! ## Final-memo update: `update_final_memo` (review.py lines 255-318) -/

/-- Outcome of `update_final_memo`. -/
inductive UpdateOutcome where
  | notFound
  | storageError
  | updated (note : ReviewNote)

/-- The ownership-scoped lookup (review.py lines 272-278):
`select(ReviewNote).where(ReviewNote.id == review_id, ReviewNote.user_id == current_user.id)`
with `scalar_one_or_none()`. -/
def findNote (notes : List ReviewNote) (reviewId userId : ℕ) : Option ReviewNote :=
  notes.find? (fun n => n.id == reviewId && n.user_id == userId)

/-- The effect of `review.final_memo = ...; db.commit()` on the table: the
matched row's `final_memo` is replaced, all other rows untouched. -/
def setFinalMemoFirst (reviewId userId : ℕ) (text : String) :
    List ReviewNote → List ReviewNote
  | [] => []
  | n :: ns =>
    if n.id == reviewId && n.user_id == userId then
      { n with final_memo := some text } :: ns
    else n :: setFinalMemoFirst reviewId userId text ns

/-- `update_final_memo` (review.py lines 255-318): 404 when no note with that
id is owned by that user; otherwise set `final_memo`, commit (rollback to the
unchanged state on a commit exception) and return the updated note. -/
def update_final_memo (db : DB) (reviewId userId : ℕ) (text : String)
    (commitFails : Bool) : UpdateOutcome × DB :=
  match findNote db.notes reviewId userId with
  | none => (.notFound, db)
  | some n =>
    if commitFails then (.storageError, db)
    else
      (.updated { n with final_memo := some text },
       { db with notes := setFinalMemoFirst reviewId userId text db.notes })

/-! ## Helper lemmas -/

/-- The retry loop never makes more attempts than its remaining iteration
budget: the loop is bounded. -/
theorem runAttempts_le (provider : ℕ → AttemptOutcome) (maxRetries : ℕ) (retryDelay : ℚ)
    (remaining attempt : ℕ) :
    (runAttempts provider maxRetries retryDelay attempt remaining).2.1 ≤ remaining := by
  induction remaining generalizing attempt with
  | zero => simp [runAttempts]
  | succ n ih =>
    cases h : provider attempt with
    | success r =>
      cases r with
      | parsed j => simp [runAttempts, h]
      | unparseable e =>
        rw [runAttempts, h]
        dsimp only
        split
        · simp
        · simpa using Nat.succ_le_succ (ih (attempt + 1))
    | timeout =>
      rw [runAttempts, h]
      dsimp only
      split
      · simp
      · simpa using Nat.succ_le_succ (ih (attempt + 1))
    | badRequest e => simp [runAttempts, h]
    | rateLimit =>
      rw [runAttempts, h]
      dsimp only
      split
      · simp
      · simpa using Nat.succ_le_succ (ih (attempt + 1))
    | otherError e =>
      rw [runAttempts, h]
      dsimp only
      split
      · simp
      · simpa using Nat.succ_le_succ (ih (attempt + 1))

/-- `setFinalMemoFirst` rewrites at most the first matching row, and only its
`final_memo` field; every other row is returned unchanged. -/
theorem setFinalMemoFirst_frame (reviewId userId : ℕ) (text : String)
    (notes : List ReviewNote) :
    List.Forall₂ (fun old new => new = old
        ∨ (old.id = reviewId ∧ old.user_id = userId
           ∧ new = { old with final_memo := some text }))
      notes (setFinalMemoFirst reviewId userId text notes) := by
  induction notes with
  | nil => exact List.Forall₂.nil
  | cons n ns ih =>
    rw [setFinalMemoFirst]
    split
    · rename_i h
      simp only [Bool.and_eq_true, beq_iff_eq] at h
      exact List.Forall₂.cons (Or.inr ⟨h.1, h.2, rfl⟩)
        (List.forall₂_same.mpr (fun x _ => Or.inl rfl))
    · exact List.Forall₂.cons (Or.inl rfl) ih

/-- Equality of every `ReviewNote` field except `final_memo`. -/
def agreesExceptFinalMemo (a b : ReviewNote) : Prop :=
  a.id = b.id ∧ a.user_id = b.user_id ∧ a.trade_id = b.trade_id
  ∧ a.subjective_memo = b.subjective_memo ∧ a.emotion_tags = b.emotion_tags
  ∧ a.chart_context = b.chart_context ∧ a.news_context = b.news_context
  ∧ a.market_context = b.market_context ∧ a.financial_context = b.financial_context
  ∧ a.ai_analysis = b.ai_analysis ∧ a.ai_questions = b.ai_questions
  ∧ a.primary_type = b.primary_type ∧ a.secondary_type = b.secondary_type

/-! ## Claim theorems -/

/-- C5: with a provider that times out on every call and `max_retries = 3`,
`get_ai_feedback` makes exactly 3 attempts and returns the timeout-failure
dict; in general a timeout on the last attempt (`attempt = max_retries - 1`)
returns the timeout failure with no further attempt and no sleep, a timeout
on an earlier attempt sleeps `retry_delay * (attempt + 1)` and retries, and
the attempt count never exceeds the loop's iteration budget (no unbounded
loop). -/
theorem invoker_timeout_exhausts_retries (d : ℚ) (k : String) (hk : k ≠ "") :
    get_ai_feedback ⟨k, 3, d⟩ (fun _ => AttemptOutcome.timeout)
      = (errDict msgTimeout, 3, [d * 1, d * 2])
    ∧ (∀ (provider : ℕ → AttemptOutcome) (maxRetries attempt : ℕ),
        provider attempt = AttemptOutcome.timeout → attempt = maxRetries - 1 →
        ∀ remaining, runAttempts provider maxRetries d attempt (remaining + 1)
          = (errDict msgTimeout, 1, []))
    ∧ (∀ (provider : ℕ → AttemptOutcome) (maxRetries attempt remaining : ℕ),
        provider attempt = AttemptOutcome.timeout → attempt ≠ maxRetries - 1 →
        runAttempts provider maxRetries d attempt (remaining + 1)
          = ((runAttempts provider maxRetries d (attempt + 1) remaining).1,
             (runAttempts provider maxRetries d (attempt + 1) remaining).2.1 + 1,
             d * (attempt + 1 : ℚ)
               :: (runAttempts provider maxRetries d (attempt + 1) remaining).2.2))
    ∧ (∀ (provider : ℕ → AttemptOutcome) (maxRetries attempt remaining : ℕ),
        (runAttempts provider maxRetries d attempt remaining).2.1 ≤ remaining) := by
  refine ⟨?_, ?_, ?_, ?_⟩
  · simp [get_ai_feedback, runAttempts, hk]
    norm_num
  · intro provider maxRetries attempt h hl remaining
    subst hl
    simp [runAttempts, h]
  · intro provider maxRetries attempt remaining h hl
    rw [runAttempts, h]
    dsimp only
    rw [if_neg hl]
  · intro provider maxRetries attempt remaining
    exact runAttempts_le provider maxRetries d remaining attempt

/-- C5 witness. -/
theorem invoker_timeout_exhausts_retries_witness :
    get_ai_feedback ⟨"sk-test", 3, 1⟩ (fun _ => AttemptOutcome.timeout)
      = (errDict msgTimeout, 3, [1 * 1, 1 * 2]) :=
  (invoker_timeout_exhausts_retries 1 "sk-test" (by decide)).1

/-- C6: a bad-request error from the provider on any attempt makes
`get_ai_feedback` return the failure dict immediately: exactly that one
attempt, no backoff sleep, regardless of the remaining retry budget. -/
theorem invoker_bad_request_immediate :
    (∀ (provider : ℕ → AttemptOutcome) (maxRetries : ℕ) (d : ℚ)
       (attempt remaining : ℕ) (e : String),
        provider attempt = AttemptOutcome.badRequest e →
        runAttempts provider maxRetries d attempt (remaining + 1)
          = (errDict (msgBadRequest e), 1, []))
    ∧ (∀ (k : String) (mr : ℕ) (d : ℚ) (e : String), k ≠ "" →
        get_ai_feedback ⟨k, mr + 1, d⟩ (fun _ => AttemptOutcome.badRequest e)
          = (errDict (msgBadRequest e), 1, [])) := by
  constructor
  · intro provider maxRetries d attempt remaining e h
    simp [runAttempts, h]
  · intro k mr d e hk
    simp [get_ai_feedback, hk, runAttempts]

/-- C6 witness. -/
theorem invoker_bad_request_immediate_witness :
    get_ai_feedback ⟨"sk-test", 3, 1⟩ (fun _ => AttemptOutcome.badRequest "boom")
      = (errDict (msgBadRequest "boom"), 1, []) :=
  invoker_bad_request_immediate.2 "sk-test" 2 1 "boom" (by decide)

/-- C7: with timeouts on attempts 0 and 1 and a parsed success on attempt 2
(`max_retries = 3`), `get_ai_feedback` returns the success result after
exactly 3 attempts with sleeps `retry_delay * 1` then `retry_delay * 2`;
those sleeps are strictly increasing whenever `retry_delay > 0`; and in
general the sleep after a non-final timeout at attempt `i` is exactly
`retry_delay * (i + 1)`. -/
theorem invoker_backoff_linear_increasing (j : Json) (d : ℚ) (k : String) (hk : k ≠ "") :
    get_ai_feedback ⟨k, 3, d⟩
        (fun n => if n < 2 then AttemptOutcome.timeout
                  else AttemptOutcome.success (ModelResponse.parsed j))
      = (j, 3, [d * 1, d * 2])
    ∧ (0 < d → List.Chain' (· < ·)
        (get_ai_feedback ⟨k, 3, d⟩
          (fun n => if n < 2 then AttemptOutcome.timeout
                    else AttemptOutcome.success (ModelResponse.parsed j))).2.2)
    ∧ (∀ (provider : ℕ → AttemptOutcome) (maxRetries attempt remaining : ℕ),
        provider attempt = AttemptOutcome.timeout → attempt ≠ maxRetries - 1 →
        (runAttempts provider maxRetries d attempt (remaining + 1)).2.2
          = d * (attempt + 1 : ℚ)
            :: (runAttempts provider maxRetries d (attempt + 1) remaining).2.2) := by
  have h1 : get_ai_feedback ⟨k, 3, d⟩
      (fun n => if n < 2 then AttemptOutcome.timeout
                else AttemptOutcome.success (ModelResponse.parsed j))
      = (j, 3, [d * 1, d * 2]) := by
    simp [get_ai_feedback, runAttempts, hk]
    norm_num
  refine ⟨h1, ?_, ?_⟩
  · intro hd
    rw [h1]
    simp only [List.chain'_cons, List.chain'_singleton, and_true]
    nlinarith
  · intro provider maxRetries attempt remaining h hl
    rw [runAttempts, h]
    dsimp only
    rw [if_neg hl]

/-- C7 witness. -/
theorem invoker_backoff_linear_increasing_witness :
    get_ai_feedback ⟨"sk-test", 3, 1⟩
        (fun n => if n < 2 then AttemptOutcome.timeout
                  else AttemptOutcome.success (ModelResponse.parsed Json.null))
      = (Json.null, 3, [1 * 1, 1 * 2]) :=
  (invoker_backoff_linear_increasing Json.null 1 "sk-test" (by decide)).1

/-- C10: with `MAX_RETRIES = 0` the loop body never runs — no model call, no
sleep — and the generic retries-exceeded failure dict is returned (source
line 184); with an empty API key the failure dict of source line 79 is
returned before any attempt. -/
theorem invoker_zero_retries_and_missing_key :
    (∀ (provider : ℕ → AttemptOutcome) (d : ℚ) (k : String), k ≠ "" →
        get_ai_feedback ⟨k, 0, d⟩ provider = (errDict msgRetriesExceeded, 0, []))
    ∧ (∀ (provider : ℕ → AttemptOutcome) (cfg : InvokerConfig),
        cfg.OPENAI_API_KEY = "" →
        get_ai_feedback cfg provider = (errDict msgNoApiKey, 0, [])) := by
  constructor
  · intro provider d k hk
    simp [get_ai_feedback, hk, runAttempts]
  · intro provider cfg h
    simp [get_ai_feedback, h]

/-- C10 witness. -/
theorem invoker_zero_retries_and_missing_key_witness :
    get_ai_feedback ⟨"sk-test", 0, 1⟩ (fun _ => AttemptOutcome.timeout)
      = (errDict msgRetriesExceeded, 0, [])
    ∧ get_ai_feedback ⟨"", 3, 1⟩ (fun _ => AttemptOutcome.timeout)
      = (errDict msgNoApiKey, 0, []) :=
  ⟨invoker_zero_retries_and_missing_key.1 _ 1 "sk-test" (by decide),
   invoker_zero_retries_and_missing_key.2 _ ⟨"", 3, 1⟩ rfl⟩

/-! ## Concrete scenario values used by counterexamples and witnesses -/

/-- A model response object whose `secondary_type` is the literal sentinel
string "null" (a shape the classification guide explicitly invites the model
to produce, and which `test_prompt.py` line 94 normalizes on the test side). -/
def sentinelFields : JObj :=
  [("analysis", Json.str "분석"), ("questions", Json.str "질문"),
   ("primary_type", Json.str "기타"), ("secondary_type", Json.str "null")]

/-- A model response object with `primary_type` missing entirely. -/
def missingPrimaryFields : JObj :=
  [("analysis", Json.str "분석"), ("questions", Json.str "질문")]

/-- A well-formed model response object. -/
def goodResponse : JObj :=
  [("analysis", Json.str "분석"), ("questions", Json.str "질문"),
   ("primary_type", Json.str "Panic_Sell_공포투매"), ("secondary_type", Json.null)]

/-- A snapshot with all four sub-sections carrying data. -/
def okSnapshot : MarketSnapshot :=
  { chart_indicators := [("rsi_status", Json.str "Oversold (RSI < 30)")],
    financial_indicators := [("sector", Json.str "Technology")],
    related_news := NewsField.items [[("title", Json.str "글로벌 경기 침체 공포 확산")]],
    market_indicators := [("status", Json.str "FALLING")] }

/-- A snapshot whose `related_news` carries the error marker
(`yfinance_processor.py` line 129). -/
def newsErrorSnapshot : MarketSnapshot :=
  { chart_indicators := [("rsi_status", Json.str "Oversold (RSI < 30)")],
    financial_indicators := [("sector", Json.str "Technology")],
    related_news := NewsField.errObj "Failed to get news: boom",
    market_indicators := [("status", Json.str "FALLING")] }

/-- A validated review-creation request. -/
def sampleRequest : ReviewCreateRequest :=
  { ticker := "AAPL", trade_info := "AAPL (-5.0%)",
    emotion_tags := ["공포", "불안", "패닉"],
    memo := "어제 미국 증시 폭락했다는 뉴스 보고 너무 무서워서 팔았다" }

/-- C1 counterexample: the claim says validation fails with a ParseError when
`primary_type` is missing/empty and that a sentinel `secondary_type` of
"null" is normalized away, so the structured output returned on success never
carries the sentinel.  In the code, `get_ai_feedback` returns the parsed
object unchanged: a response with `secondary_type = "null"` is a success
whose secondary category is the literal string "null" (and `create_review`
passes it through to the API response), and a response missing `primary_type`
is also accepted as success. -/
theorem validator_no_normalization_counterexample :
    (get_ai_feedback ⟨"sk-test", 3, 1⟩
        (fun _ => AttemptOutcome.success (ModelResponse.parsed (Json.obj sentinelFields)))).1
      = Json.obj sentinelFields
    ∧ jGet sentinelFields "secondary_type" Json.null = Json.str "null"
    ∧ Json.str "null" ≠ Json.null
    ∧ (create_review ⟨[], []⟩ 1 sampleRequest (FetchResult.ok okSnapshot) ⟨"sk-test", 3, 1⟩
        (fun _ => AttemptOutcome.success (ModelResponse.parsed (Json.obj sentinelFields)))
        none).1
      = ReviewOutcome.created (Json.str "분석") (Json.str "질문") (Json.str "기타")
          (Json.str "null")
    ∧ ((create_review ⟨[], []⟩ 1 sampleRequest (FetchResult.ok okSnapshot) ⟨"sk-test", 3, 1⟩
        (fun _ => AttemptOutcome.success (ModelResponse.parsed (Json.obj sentinelFields)))
        none).2.notes.map (fun n => n.secondary_type))
      = [Json.str "null"]
    ∧ (get_ai_feedback ⟨"sk-test", 3, 1⟩
        (fun _ => AttemptOutcome.success
            (ModelResponse.parsed (Json.obj missingPrimaryFields)))).1
      = Json.obj missingPrimaryFields :=
  ⟨rfl, rfl, fun h => Json.noConfusion h, rfl, rfl, rfl⟩

/-- C1 amended: unparseable raw text is treated as a generic transient
exception — retried, and a failure dict after the last attempt; a
successfully parsed object is returned as success entirely unchanged, so no
`primary_type` presence/emptiness check is performed and sentinel
`secondary_type` strings are not normalized (that normalization exists only
in the offline `test_prompt.py` script, not in the service). -/
theorem validator_passthrough (k : String) (mr : ℕ) (d : ℚ) (j : Json)
    (provider : ℕ → AttemptOutcome) (hk : k ≠ "")
    (h0 : provider 0 = AttemptOutcome.success (ModelResponse.parsed j)) :
    get_ai_feedback ⟨k, mr + 1, d⟩ provider = (j, 1, [])
    ∧ (∀ e, get_ai_feedback ⟨k, 3, d⟩
        (fun _ => AttemptOutcome.success (ModelResponse.unparseable e))
        = (errDict (msgOtherError e), 3, [d * 1, d * 2])) := by
  constructor
  · simp [get_ai_feedback, hk, runAttempts, h0]
  · intro e
    simp [get_ai_feedback, hk, runAttempts]
    norm_num

/-- C1 witness (for the amended claim). -/
theorem validator_passthrough_witness :
    get_ai_feedback ⟨"sk-key", 3, 1⟩
        (fun _ => AttemptOutcome.success (ModelResponse.parsed (Json.obj goodResponse)))
      = (Json.obj goodResponse, 1, []) :=
  (validator_passthrough "sk-key" 2 1 (Json.obj goodResponse) _ (by decide) rfl).1

/-- C2 (code bug): the claim says prompt compilation never raises and renders
"N/A" for exactly the erroring sub-sections.  Erroring chart/market
sub-sections are indeed rendered as "N/A" (second conjunct), but an erroring
`related_news` sub-section — the dict `{"error": msg}` the data processor
returns for it — makes the slice `related_news[:3]` in `create_review` raise
`TypeError`, so compilation does raise (first conjunct). -/
theorem compile_news_error_raises :
    compileObjective newsErrorSnapshot
      = Except.error "TypeError: unhashable type: slice"
    ∧ compileObjective
        { chart_indicators := [("error", Json.str "No history data found.")],
          financial_indicators := [("error", Json.str "Failed to get financial info: x")],
          related_news := NewsField.items [[("title", Json.str "headline")]],
          market_indicators := [("error", Json.str "Market index data not found.")] }
      = Except.ok { chart_indicators := Json.str "N/A",
                    related_news := [Json.str "headline"],
                    market_indicators := Json.str "N/A" }
    ∧ compileObjective okSnapshot
      = Except.ok { chart_indicators := Json.str "Oversold (RSI < 30)",
                    related_news := [Json.str "글로벌 경기 침체 공포 확산"],
                    market_indicators := Json.str "FALLING" } :=
  ⟨rfl, rfl, rfl⟩

/-- C8: the parenthesized signed decimal percentage embedded in the
trade-info text is extracted as its numeric value ("삼성전자 (-6.5%)" gives
-6.5, "AAPL (+12.3%)" gives 12.3); a string without the pattern gives `none`,
and the function is total (no raising path). -/
theorem extract_profit_loss_rate_spec :
    extract_profit_loss_rate "삼성전자 (-6.5%)" = some (-6.5 : ℚ)
    ∧ extract_profit_loss_rate "AAPL (+12.3%)" = some (12.3 : ℚ)
    ∧ extract_profit_loss_rate "삼성전자" = none
    ∧ (∀ s : String, searchPercent s.toList = none →
        extract_profit_loss_rate s = none) := by
  refine ⟨?_, ?_, by decide, ?_⟩
  · have h : searchPercent (String.toList "삼성전자 (-6.5%)") = some ['-', '6', '.', '5'] := by
      decide
    have h1 : takeDigits ['6', '.', '5'] = (['6'], ['.', '5']) := by decide
    have h2 : takeDigits ['5'] = (['5'], []) := by decide
    have h3 : digitsToNat ['6'] = 6 := by decide
    have h4 : digitsToNat ['5'] = 5 := by decide
    simp only [extract_profit_loss_rate, h, Option.map_some', parseSignedDecimal,
      h1, h2, h3, h4]
    norm_num
  · have h : searchPercent (String.toList "AAPL (+12.3%)") = some ['+', '1', '2', '.', '3'] := by
      decide
    have h1 : takeDigits ['1', '2', '.', '3'] = (['1', '2'], ['.', '3']) := by decide
    have h2 : takeDigits ['3'] = (['3'], []) := by decide
    have h3 : digitsToNat ['1', '2'] = 12 := by decide
    have h4 : digitsToNat ['3'] = 3 := by decide
    simp only [extract_profit_loss_rate, h, Option.map_some', parseSignedDecimal,
      h1, h2, h3, h4]
    norm_num
  · intro s hs
    unfold extract_profit_loss_rate
    rw [hs]
    rfl

/-- C8 witness. -/
theorem extract_profit_loss_rate_spec_witness :
    extract_profit_loss_rate "no percentage here" = none :=
  extract_profit_loss_rate_spec.2.2.2 "no percentage here" (by decide)

/-- C3: when the persistence step raises (either at the flush or at the
commit) in a run that reached it, `create_review` rolls back — the database
is exactly as before, so neither the Trade nor the ReviewNote is visible —
and surfaces the single generic storage error (first conjunct).  The second
conjunct is the invariant for every run: either the database is unchanged, or
exactly one Trade and one ReviewNote were appended together, the note
referencing that trade and owned by the requesting user. -/
theorem persistence_rollback_atomic (db : DB) (userId : ℕ) (req : ReviewCreateRequest)
    (snapshot : MarketSnapshot) (cfg : InvokerConfig) (provider : ℕ → AttemptOutcome)
    (kvs : JObj) (pf : PersistFail) (c : AiObjective)
    (hcompile : compileObjective snapshot = Except.ok c)
    (hai : (get_ai_feedback cfg provider).1 = Json.obj kvs)
    (herr : truthy (jGet kvs "error" Json.null) = false) :
    create_review db userId req (FetchResult.ok snapshot) cfg provider (some pf)
      = (ReviewOutcome.httpError 500 msgStorage, db)
    ∧ (∀ (db' : DB) (uid : ℕ) (rq : ReviewCreateRequest) (f : FetchResult)
         (cf : InvokerConfig) (pr : ℕ → AttemptOutcome) (pfo : Option PersistFail),
        (create_review db' uid rq f cf pr pfo).2 = db'
        ∨ ∃ t n, (create_review db' uid rq f cf pr pfo).2.trades = db'.trades ++ [t]
            ∧ (create_review db' uid rq f cf pr pfo).2.notes = db'.notes ++ [n]
            ∧ n.trade_id = t.id ∧ n.user_id = uid) := by
  constructor
  · simp [create_review, hcompile, hai, herr]
  · intro db' uid rq f cf pr pfo
    cases f with
    | httpStatusError c' => exact Or.inl rfl
    | readTimeout => exact Or.inl rfl
    | otherExc m => exact Or.inl rfl
    | ok snap =>
      rw [create_review]
      cases hc : compileObjective snap with
      | error m => exact Or.inl rfl
      | ok c' =>
        cases hr : (get_ai_feedback cf pr).1 with
        | obj kv =>
          dsimp only
          by_cases ht : truthy (jGet kv "error" Json.null) = true
          · rw [if_pos ht]
            exact Or.inl rfl
          · rw [if_neg ht]
            cases pfo with
            | some pf' => exact Or.inl rfl
            | none =>
              refine Or.inr ⟨_, _, rfl, rfl, ?_, ?_⟩ <;> rfl
        | null => exact Or.inl rfl
        | bool b => exact Or.inl rfl
        | num q => exact Or.inl rfl
        | str s => exact Or.inl rfl
        | arr xs => exact Or.inl rfl

/-- C3 witness. -/
theorem persistence_rollback_atomic_witness :
    create_review ⟨[], []⟩ 1 sampleRequest (FetchResult.ok okSnapshot) ⟨"sk-test", 3, 1⟩
        (fun _ => AttemptOutcome.success (ModelResponse.parsed (Json.obj goodResponse)))
        (some PersistFail.commitFails)
      = (ReviewOutcome.httpError 500 msgStorage, ⟨[], []⟩) :=
  (persistence_rollback_atomic ⟨[], []⟩ 1 sampleRequest okSnapshot ⟨"sk-test", 3, 1⟩
      (fun _ => AttemptOutcome.success (ModelResponse.parsed (Json.obj goodResponse)))
      goodResponse PersistFail.commitFails _ rfl rfl rfl).1

/-- C4: each market-data fetch failure kind (non-2xx status, read timeout,
unexpected exception) aborts `create_review` with its distinct error before
any database write, and a classifier failure (a returned dict with a truthy
`"error"` entry) aborts with the analysis-failure error before any database
write; in all four cases the database is unchanged. -/
theorem no_write_before_persistence (db : DB) (userId : ℕ) (req : ReviewCreateRequest)
    (cfg : InvokerConfig) (provider : ℕ → AttemptOutcome) (pf : Option PersistFail) :
    (∀ c', create_review db userId req (FetchResult.httpStatusError c') cfg provider pf
        = (ReviewOutcome.httpError 503 msgFetch503, db))
    ∧ create_review db userId req FetchResult.readTimeout cfg provider pf
        = (ReviewOutcome.httpError 504 msgFetch504, db)
    ∧ (∀ m, create_review db userId req (FetchResult.otherExc m) cfg provider pf
        = (ReviewOutcome.httpError 500 msgFetch500, db))
    ∧ (∀ (snapshot : MarketSnapshot) (c : AiObjective) (kvs : JObj),
        compileObjective snapshot = Except.ok c →
        (get_ai_feedback cfg provider).1 = Json.obj kvs →
        truthy (jGet kvs "error" Json.null) = true →
        create_review db userId req (FetchResult.ok snapshot) cfg provider pf
          = (ReviewOutcome.httpError 500
              ("AI 분석 실패: " ++ pyStr (jGet kvs "error" Json.null)), db)) := by
  refine ⟨fun c' => rfl, rfl, fun m => rfl, ?_⟩
  intro snapshot c kvs hc hai ht
  simp [create_review, hc, hai, ht]

/-- C4 witness. -/
theorem no_write_before_persistence_witness :
    create_review ⟨[], []⟩ 1 sampleRequest (FetchResult.httpStatusError 500)
        ⟨"sk-test", 3, 1⟩ (fun _ => AttemptOutcome.badRequest "boom") none
      = (ReviewOutcome.httpError 503 msgFetch503, ⟨[], []⟩)
    ∧ create_review ⟨[], []⟩ 1 sampleRequest (FetchResult.ok okSnapshot)
        ⟨"sk-test", 3, 1⟩ (fun _ => AttemptOutcome.badRequest "boom") none
      = (ReviewOutcome.httpError 500 ("AI 분석 실패: " ++ msgBadRequest "boom"), ⟨[], []⟩) :=
  ⟨(no_write_before_persistence ⟨[], []⟩ 1 sampleRequest ⟨"sk-test", 3, 1⟩
      (fun _ => AttemptOutcome.badRequest "boom") none).1 500,
   (no_write_before_persistence ⟨[], []⟩ 1 sampleRequest ⟨"sk-test", 3, 1⟩
      (fun _ => AttemptOutcome.badRequest "boom") none).2.2.2 okSnapshot _
      [("error", Json.str (msgBadRequest "boom"))] rfl rfl rfl⟩

/-- C9: `update_final_memo` returns not-found exactly when no ReviewNote with
the given id is owned by the given user (so a non-owned review is
indistinguishable from a nonexistent one), leaving the database unchanged;
on a match it sets only `final_memo` — every other field of the updated note
is unchanged, the trades table is unchanged, and every other row is unchanged
— commits and returns the updated record; on a commit failure it rolls back
to the unchanged database with a storage error. -/
theorem update_final_memo_spec (db : DB) (reviewId userId : ℕ) (text : String) :
    ((update_final_memo db reviewId userId text false).1 = UpdateOutcome.notFound
       ↔ findNote db.notes reviewId userId = none)
    ∧ (findNote db.notes reviewId userId = none →
        ∀ cf, update_final_memo db reviewId userId text cf = (UpdateOutcome.notFound, db))
    ∧ (∀ n, findNote db.notes reviewId userId = some n →
        update_final_memo db reviewId userId text false
          = (UpdateOutcome.updated { n with final_memo := some text },
             { db with notes := setFinalMemoFirst reviewId userId text db.notes })
        ∧ agreesExceptFinalMemo n { n with final_memo := some text }
        ∧ (update_final_memo db reviewId userId text false).2.trades = db.trades
        ∧ List.Forall₂ (fun old new => new = old
             ∨ (old.id = reviewId ∧ old.user_id = userId
                ∧ new = { old with final_memo := some text }))
            db.notes (update_final_memo db reviewId userId text false).2.notes)
    ∧ (∀ n, findNote db.notes reviewId userId = some n →
        update_final_memo db reviewId userId text true
          = (UpdateOutcome.storageError, db)) := by
  refine ⟨?_, ?_, ?_, ?_⟩
  · cases h : findNote db.notes reviewId userId with
    | none => simp [update_final_memo, h]
    | some n => simp [update_final_memo, h]
  · intro h cf
    cases cf <;> simp [update_final_memo, h]
  · intro n h
    refine ⟨?_, ?_, ?_, ?_⟩
    · simp [update_final_memo, h]
    · exact ⟨rfl, rfl, rfl, rfl, rfl, rfl, rfl, rfl, rfl, rfl, rfl, rfl, rfl⟩
    · simp [update_final_memo, h]
    · have hf := setFinalMemoFirst_frame reviewId userId text db.notes
      simpa [update_final_memo, h] using hf
  · intro n h
    simp [update_final_memo, h]

/-- A concrete persisted review note. -/
def sampleNote : ReviewNote :=
  { id := 7, user_id := 1, trade_id := 3, subjective_memo := "memo",
    emotion_tags := ["공포"], chart_context := [], news_context := NewsField.items [],
    market_context := [], financial_context := [], ai_analysis := Json.str "분석",
    ai_questions := Json.str "질문", primary_type := Json.str "기타",
    secondary_type := Json.null, final_memo := none }

/-- C9 witness. -/
theorem update_final_memo_spec_witness :
    update_final_memo ⟨[], [sampleNote]⟩ 7 1 "최종 메모" false
      = (UpdateOutcome.updated { sampleNote with final_memo := some "최종 메모" },
         { trades := [], notes := setFinalMemoFirst 7 1 "최종 메모" [sampleNote] }) :=
  ((update_final_memo_spec ⟨[], [sampleNote]⟩ 7 1 "최종 메모").2.2.1 sampleNote rfl).1

end GenAI
